import Mathlib

/-!
Shallow embedding of the StreamNative Vault secrets backend
(package `streamnative`): the credential record model, the token cache
policy (`readCachedToken` / `saveCachedToken`), the issuance
orchestration (`readNewToken`) and the path handlers (`handleRead` /
`handleWrite` / `handleDelete`).

Records are decoded JSON objects (Go `map[string]interface{}` decoded
with `jsonutil.DecodeJSON`, which uses `UseNumber`): the dynamic Go
value universe is `Val`, a record is an association list `Rec` whose
lookup mirrors Go map indexing, and the storage for one path is
`Option Rec`.  A `json.Number` is modelled by the outcome of its
`Int64()` call: `vNumber (some n)` is a number whose `Int64()` succeeds
with `n`, `vNumber none` one whose `Int64()` fails (e.g. "3.5").
Go `int64` arithmetic wraps on overflow; `wrap64` makes that explicit.
External effects (snctl invocations, temp files, storage puts) are
injected through `IssueEnv`.
-/

namespace Streamnative

/-- Dynamic Go values as they occur in request payloads and decoded
stored records. `vFloat t frac` is a `float64` with `int64` truncation
`t` and `frac = true` iff it has a fractional part; `vMapAtom` /
`vArrAtom` stand for JSON objects / arrays (never introspected by the
source, and `reflect.TypeOf` yields an unnamed type for them). -/
inductive Val where
  | vInt (n : Int)
  | vInt64 (n : Int)
  | vNumber (intVal : Option Int)
  | vFloat (trunc : Int) (frac : Bool)
  | vStr (s : String)
  | vBool (b : Bool)
  | vNull
  | vMapAtom
  | vArrAtom
deriving DecidableEq

/-- A decoded record / request payload: Go `map[string]interface{}`. -/
abbrev Rec := List (String × Val)

/-- Go map indexing `data[k]` (first binding wins; writers only prepend
fresh bindings, matching Go map update semantics for lookups). -/
def lookupK : Rec → String → Option Val
  | [], _ => none
  | (k, v) :: rest, key => if key = k then some v else lookupK rest key

/-- Go map update `data[k] = v`. -/
def setK (d : Rec) (k : String) (v : Val) : Rec := (k, v) :: d

/-- Wraparound (two complement) of Go `int64` arithmetic. -/
def wrap64 (n : Int) : Int :=
  (n + 9223372036854775808) % 18446744073709551616 - 9223372036854775808

/-- The integer is representable as a Go `int64`. -/
def In64 (n : Int) : Prop :=
  -9223372036854775808 ≤ n ∧ n < 9223372036854775808

instance (n : Int) : Decidable (In64 n) := by unfold In64; infer_instance

/-- Decimal digit value of a character. -/
def digVal (c : Char) : Option Nat :=
  if '0' ≤ c ∧ c ≤ '9' then some (c.toNat - 48) else none

/-- Value of an all-digit character list, `none` on any non-digit. -/
def digitsToNat (cs : List Char) : Option Nat :=
  cs.foldl (fun acc c => acc.bind (fun n => (digVal c).map (fun d => n * 10 + d))) (some 0)

/-- `strconv.Atoi` (= `ParseInt(s, 10, 64)` on a 64-bit platform):
optional sign, at least one digit, nothing else, result within the
`int64` range; anything else is an error (`none`). -/
def goAtoi (s : String) : Option Int :=
  match s.toList with
  | [] => none
  | '-' :: rest =>
    if rest.isEmpty then none
    else (digitsToNat rest).bind fun n =>
      if (n : Int) ≤ 9223372036854775808 then some (-(n : Int)) else none
  | '+' :: rest =>
    if rest.isEmpty then none
    else (digitsToNat rest).bind fun n =>
      if (n : Int) < 9223372036854775808 then some (n : Int) else none
  | l =>
    (digitsToNat l).bind fun n =>
      if (n : Int) < 9223372036854775808 then some (n : Int) else none

/-- `json.Marshal` then `jsonutil.DecodeJSON` roundtrip on one value:
numbers come back as a `json.Number` whose `Int64()` succeeds exactly
when the marshalled literal was integral. -/
def normalizeVal : Val → Val
  | .vInt n => .vNumber (some n)
  | .vInt64 n => .vNumber (some n)
  | .vFloat t frac => .vNumber (if frac then none else some t)
  | v => v

/-- Roundtrip of a whole record through marshal / decode. -/
def normalizeRec (d : Rec) : Rec := d.map fun p => (p.1, normalizeVal p.2)

/-- Outcome of `readCachedToken`: a usable cached token, no usable
token (`nil` in the source), or a Go runtime panic (a failed type
assertion, or one of the two explicit `panic(...)` calls). -/
inductive CacheLookup where
  | token (t : String)
  | noToken
  | panic (msg : String)
deriving DecidableEq

/-- `(*backend).readCachedToken` evaluated with
`now = time.Now().UnixMilli()`.  `expiresAt := cachedAt64 + ttl64*1000`
is computed in wrapping `int64` arithmetic. -/
def readCachedToken (data : Rec) (now : Int) : CacheLookup :=
  match lookupK data "ttl" with
  | none => .noToken
  | some ttlV =>
    match lookupK data "cachedAt" with
    | none => .noToken
    | some cachedAtV =>
      match lookupK data "cachedToken" with
      | none => .noToken
      | some tokenV =>
        match ttlV with
        | .vNumber ttlParse =>
          match ttlParse with
          | none => .panic "ttl is not integer"
          | some ttl64 =>
            match cachedAtV with
            | .vNumber cachedAtParse =>
              match cachedAtParse with
              | none => .panic "cachedAt is not integer"
              | some cachedAt64 =>
                if now < wrap64 (cachedAt64 + wrap64 (ttl64 * 1000)) then
                  match tokenV with
                  | .vStr t => .token t
                  | _ => .panic "interface conversion: cachedToken"
                else .noToken
            | _ => .panic "interface conversion: cachedAt"
        | _ => .panic "interface conversion: ttl"

/-- The cache-validity predicate of the spec: the cached-token lookup
found a usable token. -/
def isCacheValid (data : Rec) (now : Int) : Bool :=
  match readCachedToken data now with
  | .token _ => true
  | _ => false

/-- The in-memory mutation performed by `saveCachedToken` (the refresh step of the spec): when `ttl` is set, stamp `cachedAt` with the current
epoch-millisecond time and `cachedToken` with the token; otherwise
leave the record untouched (no caching). -/
def refreshData (data : Rec) (now : Int) (token : String) : Rec :=
  if (lookupK data "ttl").isSome then
    setK (setK data "cachedAt" (.vInt64 now)) "cachedToken" (.vStr token)
  else data

/-- `saveCachedToken` reaches `Storage.Put` iff the record has a
`ttl` key (otherwise it returns nil before mutating anything). -/
def cachePutAttempted (data : Rec) : Bool := (lookupK data "ttl").isSome

/-- Go `data[k] == nil`: key absent, or present holding JSON null. -/
def goNil (v : Option Val) : Bool :=
  match v with
  | none => true
  | some .vNull => true
  | some _ => false

/-- `validateKeyData`: the first missing required field among
key-file, organization, cluster, checked in that order; `none` when
all three are non-nil. -/
def validateKeyData (data : Rec) : Option String :=
  if goNil (lookupK data "key-file") then some "No 'key-file' set"
  else if goNil (lookupK data "organization") then some "No 'organization' set"
  else if goNil (lookupK data "cluster") then some "No 'cluster' set"
  else none

/-- Distinct fatal error kinds surfaced by `readNewToken`. -/
inductive IssueErr where
  | snctlConfig
  | tempFile
  | activate
  | issueProc
  | storagePut
deriving DecidableEq

/-- Result of `readNewToken`: the issued token, a fatal error, or a Go
runtime panic (failed `.(string)` type assertion). -/
inductive TokenResult where
  | ok (token : String)
  | fatal (e : IssueErr)
  | panic (msg : String)
deriving DecidableEq

/-- Injected outcomes of the external effects of one `readNewToken`
call.  `keyWriteOk` is the result of the `ioutil.WriteFile` call that
materializes the key file into the temp file; the source discards that
result, so no definition below reads this field.  `saveNow` is the
`time.Now().UnixMilli()` observed inside `saveCachedToken`. -/
structure IssueEnv where
  snctlOk : Bool
  tempFileOk : Bool
  keyWriteOk : Bool
  activateOk : Bool
  issued : Option String
  putOk : Bool
  saveNow : Int
deriving DecidableEq

/-- `(*backend).readNewToken`.  Returns the call result together with
`some newRec` iff `Storage.Put` stored a refreshed record (the stored
state changes only in that case). -/
def readNewToken (env : IssueEnv) (data : Rec) : TokenResult × Option Rec :=
  if env.snctlOk = false then (.fatal .snctlConfig, none)
  else if env.tempFileOk = false then (.fatal .tempFile, none)
  else
    match lookupK data "key-file" with
    | some (.vStr _) =>
      if env.activateOk = false then (.fatal .activate, none)
      else
        match lookupK data "organization", lookupK data "cluster" with
        | some (.vStr _), some (.vStr _) =>
          match env.issued with
          | none => (.fatal .issueProc, none)
          | some token =>
            if (lookupK data "ttl").isSome then
              if env.putOk then
                (.ok token, some (normalizeRec (refreshData data env.saveNow token)))
              else (.fatal .storagePut, none)
            else (.ok token, none)
        | _, _ => (.panic "interface conversion: organization or cluster", none)
    | _ => (.panic "interface conversion: key-file", none)

/-- Outcome of a read call: the framework response or error, or a Go
runtime panic inside the handler. -/
inductive ReadOutcome where
  | ok (token : String)
  | errResp (msg : String)
  | fatal (e : IssueErr)
  | panic (msg : String)
deriving DecidableEq

/-- `(*backend).handleRead` for one path, with `st` the stored state
for that path and `now` the cache-check time.  Returns the outcome and
the stored state after the call.  For a missing entry
`req.Storage.Get` returns a nil entry and the source dereferences it
(`ent.Value`) before any nil check. -/
def handleRead (env : IssueEnv) (st : Option Rec) (now : Int) : ReadOutcome × Option Rec :=
  match st with
  | none => (.panic "invalid memory address or nil pointer dereference", none)
  | some data =>
    match validateKeyData data with
    | some msg => (.errResp msg, some data)
    | none =>
      match readCachedToken data now with
      | .token t => (.ok t, some data)
      | .panic m => (.panic m, some data)
      | .noToken =>
        match readNewToken env data with
        | (.ok t, some newRec) => (.ok t, some newRec)
        | (.ok t, none) => (.ok t, some data)
        | (.fatal e, _) => (.fatal e, some data)
        | (.panic m, _) => (.panic m, some data)

/-- Outcome of the ttl-coercion switch in `handleWrite` (the ttl coercion of the spec). -/
inductive TtlResult where
  | ok (n : Int)
  | errNotScalar (typeName : String)
  | errNotInt
  | panic (msg : String)
deriving DecidableEq

/-- The ttl-coercion switch of `handleWrite`.  `errNotScalar` carries
`reflect.TypeOf(v).Name()`, which is the empty string for the unnamed
map and slice types; a nil `ttl` falls into the default branch where
`reflect.TypeOf(nil).Name()` is a method call on a nil interface and
panics. -/
def coerceTtl : Val → TtlResult
  | .vInt n => .ok n
  | .vInt64 n => .ok n
  | .vNumber parsed =>
    match parsed with
    | some n => .ok n
    | none => .errNotInt
  | .vFloat t _ => .ok t
  | .vStr s =>
    match goAtoi s with
    | some n => .ok n
    | none => .errNotInt
  | .vBool _ => .errNotScalar "bool"
  | .vNull => .panic "invalid memory address or nil pointer dereference"
  | .vMapAtom => .errNotScalar ""
  | .vArrAtom => .errNotScalar ""

/-- Outcome of a write call. -/
inductive WriteOutcome where
  | ok
  | errNotScalar (typeName : String)
  | errNotInt
  | panic (msg : String)
deriving DecidableEq

/-- `(*backend).handleWrite` for one path: an empty payload deletes
the entry and returns success; otherwise `ttl`, when present, is
coerced and the payload is marshalled and stored (what a later read
decodes is the normalized record).  On a coercion failure nothing is
stored. -/
def handleWrite (st : Option Rec) (payload : Rec) : WriteOutcome × Option Rec :=
  if payload.isEmpty then (.ok, none)
  else
    match lookupK payload "ttl" with
    | none => (.ok, some (normalizeRec payload))
    | some v =>
      match coerceTtl v with
      | .ok n => (.ok, some (normalizeRec (setK payload "ttl" (.vInt64 n))))
      | .errNotScalar t => (.errNotScalar t, st)
      | .errNotInt => (.errNotInt, st)
      | .panic m => (.panic m, st)

/-- `(*backend).handleDelete`: removes the entry unconditionally. -/
def handleDelete (_st : Option Rec) : Option Rec := none

/-- One external operation on a single path. -/
inductive Op where
  | write (payload : Rec)
  | delete
  | read (env : IssueEnv) (now : Int)

/-- Stored-state transition of one operation. -/
def stepState (st : Option Rec) : Op → Option Rec
  | .write p => (handleWrite st p).2
  | .delete => handleDelete st
  | .read env now => (handleRead env st now).2

/-- Stored state after a sequence of operations on one initially
absent path. -/
def runOps (ops : List Op) : Option Rec := ops.foldl stepState none

/-!  Claim-support definitions: typed record views, invariant
predicates and concrete inputs used by the theorems below. -/

/-- A well-typed credential record built from the typed optional cache
fields of the data model (integer-valued `ttl` and `cachedAt`, string
`cachedToken`), with the three required fields present. -/
def recOf (ttl cachedAt : Option Int) (tok : Option String) : Rec :=
  [("key-file", .vStr "k"), ("organization", .vStr "o"), ("cluster", .vStr "c")]
  ++ (match ttl with | some t => [("ttl", Val.vNumber (some t))] | none => [])
  ++ (match cachedAt with | some a => [("cachedAt", Val.vNumber (some a))] | none => [])
  ++ (match tok with | some s => [("cachedToken", Val.vStr s)] | none => [])

/-- The expiry computation `cachedAt + ttl*1000` stays inside the
`int64` range (no wraparound), vacuously true when a field is absent. -/
def expiryInRange (ttl cachedAt : Option Int) : Prop :=
  match ttl, cachedAt with
  | some t, some a => In64 (t * 1000) ∧ In64 (a + t * 1000)
  | _, _ => True

/-- The two cache fields of a record are present together or absent
together. -/
def pairedRec (d : Rec) : Prop :=
  (lookupK d "cachedToken").isSome = (lookupK d "cachedAt").isSome

/-- Pairing of the cache fields in a stored state. -/
def pairedState : Option Rec → Prop
  | none => True
  | some d => pairedRec d

/-- The operation is not a write that itself supplies a cache field. -/
def cleanOp : Op → Prop
  | .write p => lookupK p "cachedToken" = none ∧ lookupK p "cachedAt" = none
  | .delete => True
  | .read _ _ => True

instance : DecidablePred cleanOp := fun op => by
  cases op <;> (unfold cleanOp; infer_instance)

/-- A valid record with a ttl and no cache fields (cache-miss read
reaches issuance and then the cache store). -/
def data1 : Rec :=
  [("key-file", .vStr "k"), ("organization", .vStr "o"), ("cluster", .vStr "c"),
   ("ttl", .vNumber (some 60))]

/-- All external effects succeed except the storage put of the
refreshed record. -/
def env1 : IssueEnv :=
  { snctlOk := true, tempFileOk := true, keyWriteOk := true, activateOk := true,
    issued := some "tok", putOk := false, saveNow := 0 }

/-- A valid record whose ttl is present and equal to zero. -/
def dataTtl0 : Rec :=
  [("key-file", .vStr "k"), ("organization", .vStr "o"), ("cluster", .vStr "c"),
   ("ttl", .vNumber (some 0))]

/-- A write payload whose ttl is the numeric string "-5". -/
def payloadNegTtl : Rec :=
  [("key-file", .vStr "k"), ("organization", .vStr "o"), ("cluster", .vStr "c"),
   ("ttl", .vStr "-5")]

/-- A valid record without a ttl. -/
def data4 : Rec :=
  [("key-file", .vStr "k"), ("organization", .vStr "o"), ("cluster", .vStr "c")]

/-- All external effects succeed except the `ioutil.WriteFile` that
materializes the key into the temp file. -/
def env4 : IssueEnv :=
  { snctlOk := true, tempFileOk := true, keyWriteOk := false, activateOk := true,
    issued := some "tok", putOk := true, saveNow := 0 }

/-- Same environment with the key-file write succeeding. -/
def env4ok : IssueEnv :=
  { snctlOk := true, tempFileOk := true, keyWriteOk := true, activateOk := true,
    issued := some "tok", putOk := true, saveNow := 0 }

/-- A record with only the key-file set (organization and cluster both
missing). -/
def data6 : Rec := [("key-file", .vStr "k")]

/-- An arbitrary effect environment (validation fails before any
effect is reached). -/
def env6 : IssueEnv :=
  { snctlOk := true, tempFileOk := true, keyWriteOk := true, activateOk := true,
    issued := some "tok", putOk := true, saveNow := 0 }

/-- A record without a ttl but with stray cache fields. -/
def data7 : Rec :=
  [("key-file", .vStr "k"), ("cachedAt", .vNumber (some 3)), ("cachedToken", .vStr "t")]

/-- An arbitrary effect environment for the no-ttl witness. -/
def env7 : IssueEnv :=
  { snctlOk := true, tempFileOk := true, keyWriteOk := true, activateOk := true,
    issued := some "x", putOk := true, saveNow := 9 }

/-- A write payload supplying `cachedToken` without `cachedAt`. -/
def badPayload : Rec :=
  [("key-file", .vStr "k"), ("organization", .vStr "o"), ("cluster", .vStr "c"),
   ("cachedToken", .vStr "t")]

/-- A clean operation sequence: one write with a ttl and no cache
fields. -/
def ops8 : List Op := [Op.write [("key-file", Val.vStr "k"), ("ttl", Val.vInt 5)]]

/-- A decodable stored record whose ttl is a non-numeric string (as an
out-of-band write can produce). -/
def data10 : Rec :=
  [("key-file", .vStr "k"), ("organization", .vStr "o"), ("cluster", .vStr "c"),
   ("ttl", .vStr "abc"), ("cachedAt", .vNumber (some 0)), ("cachedToken", .vStr "t")]

/-- A decodable stored record whose ttl is a JSON number that is not
integer-valued (its `Int64()` fails). -/
def data10b : Rec :=
  [("key-file", .vStr "k"), ("organization", .vStr "o"), ("cluster", .vStr "c"),
   ("ttl", .vNumber none), ("cachedAt", .vNumber (some 0)), ("cachedToken", .vStr "t")]

/-!  Helper lemmas shared by the claim theorems. -/

theorem lookupK_normalizeRec (d : Rec) (k : String) :
    lookupK (normalizeRec d) k = (lookupK d k).map normalizeVal := by
  induction d with
  | nil => rfl
  | cons p rest ih =>
    obtain ⟨k2, v⟩ := p
    by_cases h : k = k2
    · simp [normalizeRec, lookupK, h]
    · simpa [normalizeRec, lookupK, h] using ih

theorem wrap64_eq_self (n : Int) (h : In64 n) : wrap64 n = n := by
  unfold wrap64
  unfold In64 at h
  omega

theorem readNewToken_snd (env : IssueEnv) (data : Rec) :
    (readNewToken env data).2 = none ∨
      ∃ tok, (readNewToken env data).2 =
        some (normalizeRec (refreshData data env.saveNow tok)) ∧
        (lookupK data "ttl").isSome = true := by
  unfold readNewToken
  split
  · exact Or.inl rfl
  · split
    · exact Or.inl rfl
    · split
      · split
        · exact Or.inl rfl
        · split
          · split
            · exact Or.inl rfl
            · next token htok =>
              split
              · next h =>
                split
                · exact Or.inr ⟨token, rfl, h⟩
                · exact Or.inl rfl
              · exact Or.inl rfl
          · exact Or.inl rfl
      · exact Or.inl rfl

theorem readCachedToken_eq (data : Rec) (now t a : Int) (s : String)
    (ht : lookupK data "ttl" = some (.vNumber (some t)))
    (ha : lookupK data "cachedAt" = some (.vNumber (some a)))
    (hs : lookupK data "cachedToken" = some (.vStr s)) :
    readCachedToken data now =
      if now < wrap64 (a + wrap64 (t * 1000)) then .token s else .noToken := by
  unfold readCachedToken
  rw [ht, ha, hs]

theorem pairedRec_refresh (data : Rec) (now : Int) (tok : String)
    (h : (lookupK data "ttl").isSome = true) :
    pairedRec (normalizeRec (refreshData data now tok)) := by
  unfold refreshData
  rw [h]
  simp [pairedRec, setK, normalizeRec, lookupK, normalizeVal]

theorem stepState_paired (st : Option Rec) (op : Op)
    (h : pairedState st) (hc : cleanOp op) : pairedState (stepState st op) := by
  cases op with
  | delete => exact True.intro
  | write p =>
    obtain ⟨h1, h2⟩ := hc
    simp only [stepState, handleWrite]
    split
    · exact True.intro
    · split
      · show pairedRec (normalizeRec p)
        unfold pairedRec
        rw [lookupK_normalizeRec, lookupK_normalizeRec, h1, h2]
      · split
        · next n heq =>
          show pairedRec (normalizeRec (setK p "ttl" (.vInt64 n)))
          unfold pairedRec
          rw [lookupK_normalizeRec, lookupK_normalizeRec]
          simp [setK, lookupK, h1, h2]
        · exact h
        · exact h
        · exact h
  | read env now =>
    simp only [stepState]
    cases st with
    | none => exact True.intro
    | some data =>
      simp only [handleRead]
      split
      · exact h
      · split
        · exact h
        · exact h
        · rcases readNewToken_snd env data with hsnd | ⟨tok, hsnd, httl⟩
          · split
            · next t newRec heq =>
              rw [heq] at hsnd
              simp at hsnd
            · exact h
            · exact h
            · exact h
          · split
            · next t newRec heq =>
              rw [heq] at hsnd
              show pairedRec newRec
              rw [Option.some.inj hsnd]
              exact pairedRec_refresh data env.saveNow tok httl
            · exact h
            · exact h
            · exact h

theorem runOps_paired_aux (ops : List Op) (st : Option Rec)
    (h : pairedState st) (hc : ∀ op ∈ ops, cleanOp op) :
    pairedState (ops.foldl stepState st) := by
  induction ops generalizing st with
  | nil => exact h
  | cons op rest ih =>
    simp only [List.foldl]
    exact ih _ (stepState_paired st op h (hc op (by simp)))
      (fun o ho => hc o (by simp [ho]))

/-!  Claim theorems. -/

/-- C1 counterexample: with a valid record, a cache miss, a successful
issuance (`issued = some "tok"`) and a failing storage put, `handleRead`
returns the storage-put error, not the freshly obtained token — the
claim that persistence failure does not prevent returning the token is
false on the code. -/
theorem put_failure_not_token_counterexample :
    env1.issued = some "tok" ∧ env1.putOk = false ∧
    handleRead env1 (some data1) 0 = (.fatal .storagePut, some data1) ∧
    (handleRead env1 (some data1) 0).1 ≠ ReadOutcome.ok "tok" := by decide

/-- C1 (corrected): for every read on a valid record with no usable
cached token, if the issuer succeeds but the persistence of the
refreshed record fails (`Storage.Put` error inside `saveCachedToken`),
`handleRead` surfaces that error to the caller and does not return the
freshly obtained token; the stored record is unchanged. -/
theorem put_failure_fails_read (data : Rec) (env : IssueEnv) (now : Int) (tok : String)
    (hval : validateKeyData data = none)
    (hmiss : readCachedToken data now = .noToken)
    (hsn : env.snctlOk = true) (htf : env.tempFileOk = true)
    (hact : env.activateOk = true) (hiss : env.issued = some tok)
    (hkf : ∃ s, lookupK data "key-file" = some (.vStr s))
    (horg : ∃ s, lookupK data "organization" = some (.vStr s))
    (hcl : ∃ s, lookupK data "cluster" = some (.vStr s))
    (httl : (lookupK data "ttl").isSome = true)
    (hput : env.putOk = false) :
    handleRead env (some data) now = (.fatal .storagePut, some data) := by
  obtain ⟨ks, hks⟩ := hkf
  obtain ⟨os, hos⟩ := horg
  obtain ⟨cs, hcs⟩ := hcl
  have hnew : readNewToken env data = (.fatal .storagePut, none) := by
    unfold readNewToken
    rw [hsn, htf, hks, hact, hos, hcs, hiss, httl, hput]
    simp
  simp only [handleRead, hval, hmiss, hnew]

/-- C1 witness: the corrected theorem applied at the concrete record
and environment. -/
theorem put_failure_fails_read_witness :
    validateKeyData data1 = none ∧
    handleRead env1 (some data1) 0 = (.fatal .storagePut, some data1) :=
  ⟨rfl, put_failure_fails_read data1 env1 0 "tok" rfl rfl rfl rfl rfl rfl
    ⟨"k", rfl⟩ ⟨"o", rfl⟩ ⟨"c", rfl⟩ rfl rfl⟩

/-- C2 counterexample: a record with `ttl` present and equal to 0,
refreshed at time 5 and checked at the same time 5, is already expired
(`now < now + 0` is false with the strict comparison), so the claim
fails exactly at `ttlSeconds = 0`. -/
theorem refresh_zero_ttl_counterexample :
    lookupK dataTtl0 "ttl" = some (.vNumber (some 0)) ∧
    isCacheValid (normalizeRec (refreshData dataTtl0 5 "tok")) 5 = false := by decide

/-- C2 (corrected): refresh followed by the cache-validity check at the
same timestamp yields true whenever `ttl` is strictly positive and the
expiry computation `now + ttl*1000` does not overflow the `int64`
range; at `ttl = 0` the refreshed cache is already expired (see the
counterexample). -/
theorem refresh_then_cache_valid (data : Rec) (now t : Int) (token : String)
    (ht : lookupK data "ttl" = some (.vNumber (some t)))
    (htpos : 0 < t) (h1 : t * 1000 < 9223372036854775808)
    (h2 : In64 (now + t * 1000)) :
    isCacheValid (normalizeRec (refreshData data now token)) now = true := by
  have hsome : (lookupK data "ttl").isSome = true := by rw [ht]; rfl
  unfold refreshData
  rw [hsome]
  simp only [if_true]
  have hlt : lookupK (normalizeRec (setK (setK data "cachedAt" (.vInt64 now))
      "cachedToken" (.vStr token))) "ttl" = some (.vNumber (some t)) := by
    rw [lookupK_normalizeRec]
    simp [setK, lookupK, ht, normalizeVal]
  have hla : lookupK (normalizeRec (setK (setK data "cachedAt" (.vInt64 now))
      "cachedToken" (.vStr token))) "cachedAt" = some (.vNumber (some now)) := by
    rw [lookupK_normalizeRec]
    simp [setK, lookupK, normalizeVal]
  have hls : lookupK (normalizeRec (setK (setK data "cachedAt" (.vInt64 now))
      "cachedToken" (.vStr token))) "cachedToken" = some (.vStr token) := by
    rw [lookupK_normalizeRec]
    simp [setK, lookupK, normalizeVal]
  have e1 : wrap64 (t * 1000) = t * 1000 :=
    wrap64_eq_self _ (by unfold In64; omega)
  unfold isCacheValid
  rw [readCachedToken_eq _ now t now token hlt hla hls, e1,
      wrap64_eq_self _ h2, if_pos (by omega)]

/-- C2 witness: the corrected theorem applied at `ttl = 60`,
`now = 0`. -/
theorem refresh_then_cache_valid_witness :
    lookupK [("ttl", Val.vNumber (some 60))] "ttl" = some (Val.vNumber (some 60)) ∧
    isCacheValid (normalizeRec (refreshData [("ttl", Val.vNumber (some 60))] 0 "x")) 0 = true :=
  ⟨rfl, refresh_then_cache_valid [("ttl", Val.vNumber (some 60))] 0 60 "x" rfl
    (by decide) (by decide) (by decide)⟩

/-- C3 counterexample: a write whose ttl is the numeric string "-5" is
accepted and stored with ttl equal to the negative integer -5 — the
coercion never enforces non-negativity, so the claim that the stored
ttl is a non-negative integer is false. -/
theorem negative_ttl_stored_counterexample :
    (handleWrite none payloadNegTtl).1 = .ok ∧
    lookupK ((handleWrite none payloadNegTtl).2.getD []) "ttl" =
      some (.vNumber (some (-5))) ∧ (-5 : Int) < 0 := by decide

/-- C3 (corrected): the write coerces every scalar ttl (Go int, int64,
integral `json.Number`, float64, integer numeric string) to an integer
— possibly negative, no sign check exists — and stores it as the
record ttl; a boolean yields the coercion error naming type "bool", a
non-integral number or non-numeric string yields the
not-an-integer error, an object or array yields the coercion error
with an empty type name (their Go types are unnamed), and a null ttl
panics on a nil-interface method call instead of returning an error. -/
theorem ttl_coercion_cases :
    (∀ n : Int, coerceTtl (.vInt n) = .ok n) ∧
    (∀ n : Int, coerceTtl (.vInt64 n) = .ok n) ∧
    (∀ n : Int, coerceTtl (.vNumber (some n)) = .ok n) ∧
    coerceTtl (.vNumber none) = .errNotInt ∧
    (∀ (t : Int) (f : Bool), coerceTtl (.vFloat t f) = .ok t) ∧
    (∀ (s : String) (n : Int), goAtoi s = some n → coerceTtl (.vStr s) = .ok n) ∧
    (∀ s : String, goAtoi s = none → coerceTtl (.vStr s) = .errNotInt) ∧
    (∀ b : Bool, coerceTtl (.vBool b) = .errNotScalar "bool") ∧
    coerceTtl .vNull = .panic "invalid memory address or nil pointer dereference" ∧
    coerceTtl .vMapAtom = .errNotScalar "" ∧
    coerceTtl .vArrAtom = .errNotScalar "" ∧
    (∀ (st : Option Rec) (p : Rec) (v : Val) (n : Int),
      p.isEmpty = false → lookupK p "ttl" = some v → coerceTtl v = .ok n →
      handleWrite st p = (.ok, some (normalizeRec (setK p "ttl" (.vInt64 n)))) ∧
      lookupK (normalizeRec (setK p "ttl" (.vInt64 n))) "ttl" =
        some (.vNumber (some n))) := by
  refine ⟨fun n => rfl, fun n => rfl, fun n => rfl, rfl, fun t f => rfl,
    ?_, ?_, fun b => rfl, rfl, rfl, rfl, ?_⟩
  · intro s n hs
    simp only [coerceTtl, hs]
  · intro s hs
    simp only [coerceTtl, hs]
  · intro st p v n hp hl hc
    constructor
    · simp only [handleWrite, hp, hl, hc]
      simp
    · rw [lookupK_normalizeRec]
      simp [setK, lookupK, normalizeVal]

/-- C3 witness: the corrected theorem applied at the numeric string
"60" and at a concrete payload with an int ttl. -/
theorem ttl_coercion_cases_witness :
    coerceTtl (.vStr "60") = .ok 60 ∧
    handleWrite none [("a", Val.vStr "x"), ("ttl", Val.vInt 7)] =
      (.ok, some (normalizeRec (setK [("a", Val.vStr "x"), ("ttl", Val.vInt 7)]
        "ttl" (.vInt64 7)))) := by
  obtain ⟨h1, h2, h3, h4, h5, h6, h7, h8, h9, h10, h11, h12⟩ := ttl_coercion_cases
  exact ⟨h6 "60" 60 (by decide),
    (h12 none [("a", Val.vStr "x"), ("ttl", Val.vInt 7)] (Val.vInt 7) 7
      (by decide) (by decide) (by decide)).1⟩

/-- C4 (code bug): the source discards the error of the
`ioutil.WriteFile` that materializes the key file; with every other
effect succeeding but the key write failing, `readNewToken` still
proceeds to activation and issuance and returns the token, identically
to the run where the write succeeded — key-materialization failure is
not fatal and not surfaced, contradicting the claim (only the
`TempFile` creation error is checked and fatal). -/
theorem writefile_failure_ignored :
    env4.keyWriteOk = false ∧
    readNewToken env4 data4 = (.ok "tok", none) ∧
    readNewToken env4 data4 = readNewToken env4ok data4 ∧
    handleRead env4 (some data4) 0 = (.ok "tok", some data4) := by decide

/-- C5 counterexample: a record with `ttl = 1` and
`cachedAt = 2^63 - 1` (reachable, since a write stores a
caller-supplied `cachedAt` verbatim): the mathematical inequality
`0 < cachedAt + ttl*1000` holds, but the `int64` expiry computation
wraps to a negative value and the cache-validity check is false — the
claimed if-and-only-if fails under overflow. -/
theorem cache_valid_overflow_counterexample :
    isCacheValid (recOf (some 1) (some 9223372036854775807) (some "t")) 0 = false ∧
    (0 : Int) < 9223372036854775807 + 1 * 1000 := by decide

/-- C5 (corrected): over well-typed records, the cache-validity check
is true iff `ttl`, `cachedAt` and `cachedToken` are all present and
`now < cachedAt + ttl*1000` with strict inequality (in particular a
token expiring exactly at `now` is expired) — provided the expiry
computation stays inside the `int64` range; the source computes it in
wrapping `int64` arithmetic, so the equivalence fails under overflow
(see the counterexample). -/
theorem cache_valid_iff (ttl cachedAt : Option Int) (tok : Option String) (now : Int)
    (h : expiryInRange ttl cachedAt) :
    isCacheValid (recOf ttl cachedAt tok) now = true ↔
      ∃ t a s, ttl = some t ∧ cachedAt = some a ∧ tok = some s ∧ now < a + t * 1000 := by
  cases ttl with
  | none =>
    cases cachedAt <;> cases tok <;>
      simp only [show ∀ x y, isCacheValid (recOf none x y) now = false from by
        intro x y; cases x <;> cases y <;> rfl] <;> simp
  | some t =>
    cases cachedAt with
    | none =>
      cases tok <;>
        simp only [show ∀ y, isCacheValid (recOf (some t) none y) now = false from by
          intro y; cases y <;> rfl] <;> simp
    | some a =>
      cases tok with
      | none =>
        simp only [show isCacheValid (recOf (some t) (some a) none) now = false from rfl]
        simp
      | some s =>
        obtain ⟨h1, h2⟩ := h
        have key : readCachedToken (recOf (some t) (some a) (some s)) now =
            if now < wrap64 (a + wrap64 (t * 1000)) then .token s else .noToken := rfl
        rw [wrap64_eq_self _ h1, wrap64_eq_self _ h2] at key
        constructor
        · intro hv
          refine ⟨t, a, s, rfl, rfl, rfl, ?_⟩
          by_contra hlt
          rw [if_neg hlt] at key
          unfold isCacheValid at hv
          rw [key] at hv
          exact absurd hv (by simp)
        · rintro ⟨t2, a2, s2, ht2, ha2, hs2, hlt⟩
          obtain rfl := Option.some.inj ht2
          obtain rfl := Option.some.inj ha2
          obtain rfl := Option.some.inj hs2
          rw [if_pos hlt] at key
          unfold isCacheValid
          rw [key]

/-- C5 witness: the corrected theorem applied at
`ttl = 60, cachedAt = 0, now = 5`. -/
theorem cache_valid_iff_witness :
    expiryInRange (some 60) (some 0) ∧
    isCacheValid (recOf (some 60) (some 0) (some "x")) 5 = true :=
  ⟨⟨by decide, by decide⟩,
   (cache_valid_iff (some 60) (some 0) (some "x") 5 ⟨by decide, by decide⟩).mpr
     ⟨60, 0, "x", rfl, rfl, rfl, by decide⟩⟩

/-- C6 (confirmed): validation on read checks the required fields in
the fixed order key-file, organization, cluster; the returned error
names the first missing field (so a record missing organization gets
the organization error even if cluster is also missing), no error is
returned when all three are set, and `handleRead` returns the
validation outcome as a response to the caller, not as an error. -/
theorem validation_order (data : Rec) :
    (goNil (lookupK data "key-file") = true →
      validateKeyData data = some "No 'key-file' set") ∧
    (goNil (lookupK data "key-file") = false →
      goNil (lookupK data "organization") = true →
      validateKeyData data = some "No 'organization' set") ∧
    (goNil (lookupK data "key-file") = false →
      goNil (lookupK data "organization") = false →
      goNil (lookupK data "cluster") = true →
      validateKeyData data = some "No 'cluster' set") ∧
    (goNil (lookupK data "key-file") = false →
      goNil (lookupK data "organization") = false →
      goNil (lookupK data "cluster") = false →
      validateKeyData data = none) ∧
    (∀ (env : IssueEnv) (now : Int) (msg : String), validateKeyData data = some msg →
      handleRead env (some data) now = (.errResp msg, some data)) := by
  refine ⟨?_, ?_, ?_, ?_, ?_⟩
  · intro h1
    unfold validateKeyData
    rw [h1]
    rfl
  · intro h1 h2
    unfold validateKeyData
    rw [h1, h2]
    rfl
  · intro h1 h2 h3
    unfold validateKeyData
    rw [h1, h2, h3]
    rfl
  · intro h1 h2 h3
    unfold validateKeyData
    rw [h1, h2, h3]
    rfl
  · intro env now msg hv
    simp only [handleRead, hv]

/-- C6 witness: a record with only the key-file set yields the
organization error (not the cluster error) as the read response. -/
theorem validation_order_witness :
    validateKeyData data6 = some "No 'organization' set" ∧
    handleRead env6 (some data6) 0 = (.errResp "No 'organization' set", some data6) := by
  have h := validation_order data6
  have h2 := h.2.1 (by decide) (by decide)
  exact ⟨h2, h.2.2.2.2 env6 0 _ h2⟩

/-- C7 (confirmed): for every record without a `ttl` key the cached
lookup is always a miss regardless of the other fields, the refresh
mutation leaves the record unchanged, `saveCachedToken` never reaches
`Storage.Put`, and `readNewToken` never changes the stored state —
no caching ever occurs for such records. -/
theorem no_ttl_no_caching (data : Rec) (now : Int) (token : String)
    (h : lookupK data "ttl" = none) :
    readCachedToken data now = .noToken ∧
    refreshData data now token = data ∧
    cachePutAttempted data = false ∧
    ∀ env : IssueEnv, (readNewToken env data).2 = none := by
  refine ⟨?_, ?_, ?_, ?_⟩
  · unfold readCachedToken
    rw [h]
  · unfold refreshData
    rw [h]
    rfl
  · unfold cachePutAttempted
    rw [h]
    rfl
  · intro env
    rcases readNewToken_snd env data with h1 | ⟨tok, h1, h2⟩
    · exact h1
    · rw [h] at h2
      exact absurd h2 (by simp)

/-- C7 witness: the theorem applied at a no-ttl record carrying stray
cache fields. -/
theorem no_ttl_no_caching_witness :
    lookupK data7 "ttl" = none ∧
    readCachedToken data7 9 = .noToken ∧
    refreshData data7 9 "x" = data7 ∧
    cachePutAttempted data7 = false ∧
    (readNewToken env7 data7).2 = none := by
  have h := no_ttl_no_caching data7 9 "x" rfl
  exact ⟨rfl, h.1, h.2.1, h.2.2.1, h.2.2.2 env7⟩

/-- C8 counterexample: a single write whose payload itself supplies
`cachedToken` but not `cachedAt` is stored verbatim, so the stored
record has one cache field without the other — the invariant as
claimed over all write/read/delete sequences is false. -/
theorem unpaired_cache_write_counterexample :
    runOps [Op.write badPayload] = some badPayload ∧
    (lookupK badPayload "cachedToken").isSome = true ∧
    lookupK badPayload "cachedAt" = none := by decide

/-- C8 (corrected): over every sequence of write, read and delete
operations in which no write payload itself supplies `cachedToken` or
`cachedAt`, the stored record always has `cachedToken` present iff
`cachedAtMillis` is present: the cache-refresh path writes the two
fields together; only a write that resupplies a lone cache field (the
write stores its payload verbatim) can break the pairing. -/
theorem cache_fields_paired (ops : List Op) (hc : ∀ op ∈ ops, cleanOp op) :
    pairedState (runOps ops) :=
  runOps_paired_aux ops none True.intro hc

/-- C8 witness: the theorem applied to a concrete clean sequence. -/
theorem cache_fields_paired_witness :
    cleanOp (Op.write [("key-file", Val.vStr "k"), ("ttl", Val.vInt 5)]) ∧
    pairedState (runOps ops8) :=
  ⟨by decide, cache_fields_paired ops8 (by decide)⟩

/-- C9 (code bug): a write with an empty payload deletes the record at
the path and returns success, for any prior content; but a subsequent
read of the now-absent path does not produce the "no value at path"
response — `req.Storage.Get` returns a nil entry for a missing path
and the source dereferences `ent.Value` before any nil check, so the
read panics with a nil-pointer dereference. -/
theorem empty_write_clears_and_read_panics (st : Option Rec) (env : IssueEnv) (now : Int) :
    handleWrite st [] = (.ok, none) ∧
    handleRead env none now =
      (.panic "invalid memory address or nil pointer dereference", none) :=
  ⟨rfl, rfl⟩

/-- C10 (confirmed): the cached-token lookup is not total over
decodable stored records: with ttl, cachedAt and cachedToken all
present but ttl a non-numeric string, the `ttl.(json.Number)` type
assertion panics; with ttl a non-integral JSON number, the explicit
`panic("ttl is not integer")` fires — in neither case is a structured
error returned or the cache treated as invalid. -/
theorem cached_lookup_panics_on_ill_typed :
    ((lookupK data10 "ttl").isSome = true ∧
     (lookupK data10 "cachedAt").isSome = true ∧
     (lookupK data10 "cachedToken").isSome = true ∧
     readCachedToken data10 0 = .panic "interface conversion: ttl") ∧
    ((lookupK data10b "ttl").isSome = true ∧
     readCachedToken data10b 0 = .panic "ttl is not integer") := by decide

end Streamnative
